import Mathlib

/-!
Shallow embedding of `src/service/base.py`: the `ServiceState` enumeration,
the lifecycle methods of `ServiceBase` (`_set_state`, `start`, `stop`,
`status`, `run`), and one iteration each of the two background loops
(`on_control_msg`, `heartbeat`).  Socket and log-handler construction are
I/O plumbing outside the state model; log emission is recorded as a pure
trace of `(level, template, args)` triples, state assignments as a trace of
written states, and the heartbeat's socket traffic as a trace of events.
-/

/-- The five-member enumeration `class ServiceState(Enum)`. -/
inductive ServiceState
  | init
  | starting
  | started
  | stopping
  | stopped
  deriving DecidableEq, Repr

/-- The `.value` attribute of each enum member (its external string). -/
def ServiceState.value : ServiceState → String
  | .init => "init"
  | .starting => "starting"
  | .started => "started"
  | .stopping => "stopping"
  | .stopped => "stopped"

/-- `str(member)` as Python renders an enum member into a log message
(`"ServiceState.<name>"`; here each member's name equals its value). -/
def ServiceState.pyStr (s : ServiceState) : String :=
  "ServiceState." ++ s.value

/-- A Python value passed to `_set_state`: either a member of the
`ServiceState` enumeration, or any other value (identified by its repr).
`state in ServiceState` is the membership test: true exactly on members. -/
inductive PyValue
  | state (s : ServiceState)
  | other (r : String)
  deriving DecidableEq, Repr

/-- Severity of a logging call. -/
inductive LogLevel
  | info
  | error
  deriving DecidableEq, Repr

/-- One `logger.info`/`logger.error` call: the format template and the
arguments rendered into it. -/
structure LogEntry where
  level : LogLevel
  template : String
  args : List String
  deriving DecidableEq, Repr

/-- The mutable fields of a `ServiceBase` object that the lifecycle logic
reads and writes: `self.state` and `self.sid`. -/
structure ServiceBase where
  state : ServiceState
  sid : String
  deriving DecidableEq, Repr

/-- Outcome of a call that may `raise` (the exception's message). -/
inductive PyOutcome
  | ok
  | raised (msg : String)
  deriving DecidableEq, Repr

/-- Result of a lifecycle method: outcome, the post-call object, the log
entries emitted, the states assigned to `self.state` in order, and how many
times the worker-body hooks `pub_msg`/`sub_msg` ran. -/
structure CallResult where
  outcome : PyOutcome
  svc : ServiceBase
  log : List LogEntry
  writes : List ServiceState
  pubMsgCalls : Nat
  subMsgCalls : Nat
  deriving DecidableEq, Repr

/-- `_set_state(self, state)`: if `state in ServiceState` (membership in the
enumeration), assign `self.state = state` and log it; otherwise log an error
and `raise RuntimeError(...)`, leaving `self.state` untouched. -/
def set_state (svc : ServiceBase) (v : PyValue) : CallResult :=
  match v with
  | .state s =>
      { outcome := .ok
        svc := { svc with state := s }
        log := [⟨.info, "set server state to %s", [s.pyStr]⟩]
        writes := [s]
        pubMsgCalls := 0
        subMsgCalls := 0 }
  | .other _ =>
      { outcome := .raised "invalid server state, need in ServiceState"
        svc := svc
        log := [⟨.error, "invalid server state, need in ServiceState", []⟩]
        writes := []
        pubMsgCalls := 0
        subMsgCalls := 0 }

/-- `status(self)`: returns `self.state.value`; pure read. -/
def status (svc : ServiceBase) : String :=
  svc.state.value

/-- `run(self)`: if `self.state == ServiceState.started`, log an error and do
nothing; otherwise assign `self.state = ServiceState.started` directly (a
bare assignment, not `_set_state`, so no log entry accompanies this write).
The base class's calls to `pub_msg`/`sub_msg` are commented out in the
source, so neither hook runs in either branch. -/
def run (svc : ServiceBase) : CallResult :=
  if svc.state = ServiceState.started then
    { outcome := .ok
      svc := svc
      log := [⟨.error, "tried to run service, but state is %s", [svc.state.pyStr]⟩]
      writes := []
      pubMsgCalls := 0
      subMsgCalls := 0 }
  else
    { outcome := .ok
      svc := { svc with state := ServiceState.started }
      log := []
      writes := [ServiceState.started]
      pubMsgCalls := 0
      subMsgCalls := 0 }

/-- `stop(self)`: `_set_state(ServiceState.stopped)` then a log line. -/
def stop (svc : ServiceBase) : CallResult :=
  let r := set_state svc (.state .stopped)
  { outcome := .ok
    svc := r.svc
    log := r.log ++ [⟨.info, "service stopped", []⟩]
    writes := r.writes
    pubMsgCalls := 0
    subMsgCalls := 0 }

/-- `start(self)`: `_set_state(ServiceState.starting)`, a log line, then
`await self.run()`. -/
def start (svc : ServiceBase) : CallResult :=
  let r1 := set_state svc (.state .starting)
  let r2 := run r1.svc
  { outcome := .ok
    svc := r2.svc
    log := r1.log ++ [⟨.info, "service starting", []⟩] ++ r2.log
    writes := r1.writes ++ r2.writes
    pubMsgCalls := r2.pubMsgCalls
    subMsgCalls := r2.subMsgCalls }

/-- A decoded control message `{"sid": ..., "action": ...}`. -/
structure ControlCommand where
  sid : String
  action : String
  deriving DecidableEq, Repr

/-- Result of processing one control message: the post-call object, emitted
log, state writes, and how many times each lifecycle entry point was
invoked by the dispatch. -/
structure CtrlResult where
  svc : ServiceBase
  log : List LogEntry
  writes : List ServiceState
  stopCalls : Nat
  runCalls : Nat
  startCalls : Nat
  pubMsgCalls : Nat
  subMsgCalls : Nat
  deriving DecidableEq, Repr

/-- One iteration of the `on_control_msg` receive loop, applied to a decoded
message: if `msg['sid'] == self.sid`, dispatch `stop()` on action `"stop"`
and `run()` on action `"start"`; anything else falls through. -/
def on_control_msg_step (svc : ServiceBase) (msg : ControlCommand) : CtrlResult :=
  if msg.sid = svc.sid then
    if msg.action = "stop" then
      let r := stop svc
      { svc := r.svc, log := r.log, writes := r.writes
        stopCalls := 1, runCalls := 0, startCalls := 0
        pubMsgCalls := r.pubMsgCalls, subMsgCalls := r.subMsgCalls }
    else if msg.action = "start" then
      let r := run svc
      { svc := r.svc, log := r.log, writes := r.writes
        stopCalls := 0, runCalls := 1, startCalls := 0
        pubMsgCalls := r.pubMsgCalls, subMsgCalls := r.subMsgCalls }
    else
      { svc := svc, log := [], writes := []
        stopCalls := 0, runCalls := 0, startCalls := 0
        pubMsgCalls := 0, subMsgCalls := 0 }
  else
    { svc := svc, log := [], writes := []
      stopCalls := 0, runCalls := 0, startCalls := 0
      pubMsgCalls := 0, subMsgCalls := 0 }

/-- A Python dict with string keys and values, observed through lookups. -/
def Dict : Type :=
  String → Option String

/-- One key's effect of `dict.update`: bind `k` to `v`, keep the rest. -/
def dictUpd (d : Dict) (k v : String) : Dict :=
  fun q => if q = k then some v else d q

/-- The `infos.update({'sid': ..., 'type': 'heartbeat', 'state': ...})`
step of `heartbeat`: overwrite those three keys with the worker's values. -/
def hbInfos (svc : ServiceBase) (d : Dict) : Dict :=
  dictUpd (dictUpd (dictUpd d "sid" svc.sid) "type" "heartbeat") "state" svc.state.value

/-- Observable actions of one heartbeat iteration, in program order. -/
inductive HbEvent
  | send (payload : Dict)
  | recv
  | sleep (secs : Nat)

/-- Result of one heartbeat iteration: the (mutated-in-place) `infos` dict
and the ordered trace of socket/timer actions. -/
structure HbResult where
  infos : Dict
  events : List HbEvent

/-- One iteration of the `heartbeat` loop: update `infos` in place, send the
serialized record, receive one reply (its content discarded), then
`asyncio.sleep(10)`. -/
def heartbeat_step (svc : ServiceBase) (infos : Dict) : HbResult :=
  let infos1 := hbInfos svc infos
  { infos := infos1
    events := [HbEvent.send infos1, HbEvent.recv, HbEvent.sleep 10] }

/-- The contents of the caller's `infos` object at the start of iteration
`n` of the heartbeat loop: the dict is mutated in place, so iteration
`n + 1` starts from iteration `n`'s updated contents. -/
def hbInfosAfter (svc : ServiceBase) (infos : Dict) : Nat → Dict
  | 0 => infos
  | n + 1 => (heartbeat_step svc (hbInfosAfter svc infos n)).infos

/-- Helper for C10: keys other than `"sid"`, `"type"`, `"state"` are never
touched by any number of heartbeat iterations. -/
theorem hbInfosAfter_other_key (svc : ServiceBase) (infos : Dict) (k : String)
    (h1 : k ≠ "sid") (h2 : k ≠ "type") (h3 : k ≠ "state") :
    ∀ n : Nat, hbInfosAfter svc infos n k = infos k := by
  intro n
  induction n with
  | zero => rfl
  | succ m ih =>
    simp [hbInfosAfter, heartbeat_step, hbInfos, dictUpd, h1, h2, h3, ih]

/-- C1: for every member S of the enumerated `ServiceState` set,
`_set_state(S)` succeeds and `status()` then returns S's external string
representation; for any value outside the enumerated set, `_set_state`
raises `RuntimeError` and the stored state is unchanged. -/
theorem set_state_members_succeed_others_raise (svc : ServiceBase) :
    (∀ s : ServiceState,
      (set_state svc (.state s)).outcome = .ok ∧
      status (set_state svc (.state s)).svc = s.value) ∧
    (∀ r : String,
      (set_state svc (.other r)).outcome =
        .raised "invalid server state, need in ServiceState" ∧
      (set_state svc (.other r)).svc = svc) := by
  refine ⟨fun s => ⟨rfl, rfl⟩, fun r => ⟨rfl, rfl⟩⟩

/-- C2: `run()` on a service already in state `started` is an idempotent
no-op: the object is unchanged, the state stays `started`, no state is
written, and the worker-body publish/subscribe logic is not invoked. -/
theorem run_on_started_is_noop (svc : ServiceBase)
    (h : svc.state = ServiceState.started) :
    (run svc).svc = svc ∧
    (run svc).svc.state = ServiceState.started ∧
    (run svc).writes = [] ∧
    (run svc).pubMsgCalls = 0 ∧ (run svc).subMsgCalls = 0 := by
  simp [run, h]

/-- Witness for C2 at a concrete started service. -/
theorem run_on_started_is_noop_witness :
    (ServiceBase.mk ServiceState.started "servicebase").state = ServiceState.started ∧
    ((run ⟨ServiceState.started, "servicebase"⟩).svc = ⟨ServiceState.started, "servicebase"⟩ ∧
     (run ⟨ServiceState.started, "servicebase"⟩).svc.state = ServiceState.started ∧
     (run ⟨ServiceState.started, "servicebase"⟩).writes = [] ∧
     (run ⟨ServiceState.started, "servicebase"⟩).pubMsgCalls = 0 ∧
     (run ⟨ServiceState.started, "servicebase"⟩).subMsgCalls = 0) :=
  ⟨rfl, run_on_started_is_noop ⟨ServiceState.started, "servicebase"⟩ rfl⟩

/-- C3 as stated is false: from state `init`, one `run()` does transition to
`started`, but the worker-body hooks are invoked zero times, not exactly
once — the base class's calls to `pub_msg`/`sub_msg` are commented out. -/
theorem run_hook_count_counterexample :
    (run ⟨ServiceState.init, "servicebase"⟩).svc.state = ServiceState.started ∧
    ¬ ((run ⟨ServiceState.init, "servicebase"⟩).pubMsgCalls +
       (run ⟨ServiceState.init, "servicebase"⟩).subMsgCalls = 1) := by
  decide

/-- C3 (amended): for a service in state `init`, `starting` or `stopped`,
one invocation of `run()` transitions the state to `started`; the
worker-body hook is not invoked at all during that invocation (zero calls),
since the base class comments out its pub/sub hook calls. -/
theorem run_transitions_without_hook (svc : ServiceBase)
    (h : svc.state = ServiceState.init ∨ svc.state = ServiceState.starting ∨
         svc.state = ServiceState.stopped) :
    (run svc).svc.state = ServiceState.started ∧
    (run svc).writes = [ServiceState.started] ∧
    (run svc).pubMsgCalls = 0 ∧ (run svc).subMsgCalls = 0 := by
  have hne : svc.state ≠ ServiceState.started := by
    rcases h with h | h | h <;> simp [h]
  simp [run, hne]

/-- Witness for the amended C3 at a concrete service in state `init`. -/
theorem run_transitions_without_hook_witness :
    ((ServiceBase.mk ServiceState.init "servicebase").state = ServiceState.init ∨
     (ServiceBase.mk ServiceState.init "servicebase").state = ServiceState.starting ∨
     (ServiceBase.mk ServiceState.init "servicebase").state = ServiceState.stopped) ∧
    ((run ⟨ServiceState.init, "servicebase"⟩).svc.state = ServiceState.started ∧
     (run ⟨ServiceState.init, "servicebase"⟩).writes = [ServiceState.started] ∧
     (run ⟨ServiceState.init, "servicebase"⟩).pubMsgCalls = 0 ∧
     (run ⟨ServiceState.init, "servicebase"⟩).subMsgCalls = 0) :=
  ⟨Or.inl rfl,
   run_transitions_without_hook ⟨ServiceState.init, "servicebase"⟩ (Or.inl rfl)⟩

/-- C4: from every prior state, `stop()` ends in state `stopped`, and the
only state it ever writes is `stopped` — it never passes through or sets
the `stopping` value. -/
theorem stop_goes_directly_to_stopped (svc : ServiceBase) :
    (stop svc).svc.state = ServiceState.stopped ∧
    (stop svc).writes = [ServiceState.stopped] ∧
    ServiceState.stopping ∉ (stop svc).writes := by
  refine ⟨rfl, rfl, ?_⟩
  intro hmem
  rw [show (stop svc).writes = [ServiceState.stopped] from rfl] at hmem
  simp at hmem

/-- C5: for a control message whose `sid` equals this worker's identity:
action `"stop"` invokes `stop()` exactly once; action `"start"` invokes
`run()` exactly once and never the outer `start()` wrapper; any other
action invokes none of them and leaves the object unchanged. -/
theorem control_matching_sid_dispatch (svc : ServiceBase) (msg : ControlCommand)
    (h : msg.sid = svc.sid) :
    (msg.action = "stop" →
      (on_control_msg_step svc msg).stopCalls = 1 ∧
      (on_control_msg_step svc msg).runCalls = 0 ∧
      (on_control_msg_step svc msg).startCalls = 0) ∧
    (msg.action = "start" →
      (on_control_msg_step svc msg).runCalls = 1 ∧
      (on_control_msg_step svc msg).stopCalls = 0 ∧
      (on_control_msg_step svc msg).startCalls = 0) ∧
    (msg.action ≠ "stop" → msg.action ≠ "start" →
      (on_control_msg_step svc msg).stopCalls = 0 ∧
      (on_control_msg_step svc msg).runCalls = 0 ∧
      (on_control_msg_step svc msg).startCalls = 0 ∧
      (on_control_msg_step svc msg).svc = svc) := by
  refine ⟨?_, ?_, ?_⟩
  · intro ha
    simp [on_control_msg_step, h, ha]
  · intro ha
    have hs : msg.action ≠ "stop" := by simp [ha]
    simp [on_control_msg_step, h, ha, hs]
  · intro h1 h2
    simp [on_control_msg_step, h, h1, h2]

/-- Witness for C5 at a concrete matching stop command. -/
theorem control_matching_sid_dispatch_witness :
    (ControlCommand.mk "servicebase" "stop").sid =
      (ServiceBase.mk ServiceState.started "servicebase").sid ∧
    (((ControlCommand.mk "servicebase" "stop").action = "stop" →
      (on_control_msg_step ⟨ServiceState.started, "servicebase"⟩ ⟨"servicebase", "stop"⟩).stopCalls = 1 ∧
      (on_control_msg_step ⟨ServiceState.started, "servicebase"⟩ ⟨"servicebase", "stop"⟩).runCalls = 0 ∧
      (on_control_msg_step ⟨ServiceState.started, "servicebase"⟩ ⟨"servicebase", "stop"⟩).startCalls = 0) ∧
     ((ControlCommand.mk "servicebase" "stop").action = "start" →
      (on_control_msg_step ⟨ServiceState.started, "servicebase"⟩ ⟨"servicebase", "stop"⟩).runCalls = 1 ∧
      (on_control_msg_step ⟨ServiceState.started, "servicebase"⟩ ⟨"servicebase", "stop"⟩).stopCalls = 0 ∧
      (on_control_msg_step ⟨ServiceState.started, "servicebase"⟩ ⟨"servicebase", "stop"⟩).startCalls = 0) ∧
     ((ControlCommand.mk "servicebase" "stop").action ≠ "stop" →
      (ControlCommand.mk "servicebase" "stop").action ≠ "start" →
      (on_control_msg_step ⟨ServiceState.started, "servicebase"⟩ ⟨"servicebase", "stop"⟩).stopCalls = 0 ∧
      (on_control_msg_step ⟨ServiceState.started, "servicebase"⟩ ⟨"servicebase", "stop"⟩).runCalls = 0 ∧
      (on_control_msg_step ⟨ServiceState.started, "servicebase"⟩ ⟨"servicebase", "stop"⟩).startCalls = 0 ∧
      (on_control_msg_step ⟨ServiceState.started, "servicebase"⟩ ⟨"servicebase", "stop"⟩).svc =
        ⟨ServiceState.started, "servicebase"⟩)) :=
  ⟨rfl, control_matching_sid_dispatch ⟨ServiceState.started, "servicebase"⟩
          ⟨"servicebase", "stop"⟩ rfl⟩

/-- C6: a control message whose `sid` differs from this worker's identity
changes nothing: state field unchanged, no `stop()`/`run()` dispatch, no
worker-body hook, no write, no log. -/
theorem control_other_sid_noop (svc : ServiceBase) (msg : ControlCommand)
    (h : msg.sid ≠ svc.sid) :
    (on_control_msg_step svc msg).svc = svc ∧
    (on_control_msg_step svc msg).writes = [] ∧
    (on_control_msg_step svc msg).log = [] ∧
    (on_control_msg_step svc msg).stopCalls = 0 ∧
    (on_control_msg_step svc msg).runCalls = 0 ∧
    (on_control_msg_step svc msg).startCalls = 0 ∧
    (on_control_msg_step svc msg).pubMsgCalls = 0 ∧
    (on_control_msg_step svc msg).subMsgCalls = 0 := by
  simp [on_control_msg_step, h]

/-- Witness for C6 at a concrete non-matching command. -/
theorem control_other_sid_noop_witness :
    (ControlCommand.mk "otherworker" "stop").sid ≠
      (ServiceBase.mk ServiceState.started "servicebase").sid ∧
    ((on_control_msg_step ⟨ServiceState.started, "servicebase"⟩ ⟨"otherworker", "stop"⟩).svc =
       ⟨ServiceState.started, "servicebase"⟩ ∧
     (on_control_msg_step ⟨ServiceState.started, "servicebase"⟩ ⟨"otherworker", "stop"⟩).writes = [] ∧
     (on_control_msg_step ⟨ServiceState.started, "servicebase"⟩ ⟨"otherworker", "stop"⟩).log = [] ∧
     (on_control_msg_step ⟨ServiceState.started, "servicebase"⟩ ⟨"otherworker", "stop"⟩).stopCalls = 0 ∧
     (on_control_msg_step ⟨ServiceState.started, "servicebase"⟩ ⟨"otherworker", "stop"⟩).runCalls = 0 ∧
     (on_control_msg_step ⟨ServiceState.started, "servicebase"⟩ ⟨"otherworker", "stop"⟩).startCalls = 0 ∧
     (on_control_msg_step ⟨ServiceState.started, "servicebase"⟩ ⟨"otherworker", "stop"⟩).pubMsgCalls = 0 ∧
     (on_control_msg_step ⟨ServiceState.started, "servicebase"⟩ ⟨"otherworker", "stop"⟩).subMsgCalls = 0) :=
  ⟨by decide, control_other_sid_noop ⟨ServiceState.started, "servicebase"⟩
                ⟨"otherworker", "stop"⟩ (by decide)⟩

/-- C7: one heartbeat iteration performs, in order, exactly: send the
updated record, receive one reply (discarded), sleep 10; the sent record
carries the worker's `sid`, the type `"heartbeat"`, the live state's
string value, and every other caller-supplied entry unchanged. -/
theorem heartbeat_iteration_shape (svc : ServiceBase) (infos : Dict) (k : String)
    (h1 : k ≠ "sid") (h2 : k ≠ "type") (h3 : k ≠ "state") :
    (heartbeat_step svc infos).events =
      [HbEvent.send (heartbeat_step svc infos).infos, HbEvent.recv, HbEvent.sleep 10] ∧
    (heartbeat_step svc infos).infos "sid" = some svc.sid ∧
    (heartbeat_step svc infos).infos "type" = some "heartbeat" ∧
    (heartbeat_step svc infos).infos "state" = some svc.state.value ∧
    (heartbeat_step svc infos).infos k = infos k := by
  refine ⟨rfl, rfl, rfl, rfl, ?_⟩
  simp [heartbeat_step, hbInfos, dictUpd, h1, h2, h3]

/-- Witness for C7 at a concrete service, dict and unrelated key. -/
theorem heartbeat_iteration_shape_witness :
    (("extra" : String) ≠ "sid" ∧ ("extra" : String) ≠ "type" ∧
     ("extra" : String) ≠ "state") ∧
    ((heartbeat_step ⟨ServiceState.started, "servicebase"⟩
        (fun q => if q = "extra" then some "1" else none)).events =
       [HbEvent.send (heartbeat_step ⟨ServiceState.started, "servicebase"⟩
          (fun q => if q = "extra" then some "1" else none)).infos,
        HbEvent.recv, HbEvent.sleep 10] ∧
     (heartbeat_step ⟨ServiceState.started, "servicebase"⟩
        (fun q => if q = "extra" then some "1" else none)).infos "sid" = some "servicebase" ∧
     (heartbeat_step ⟨ServiceState.started, "servicebase"⟩
        (fun q => if q = "extra" then some "1" else none)).infos "type" = some "heartbeat" ∧
     (heartbeat_step ⟨ServiceState.started, "servicebase"⟩
        (fun q => if q = "extra" then some "1" else none)).infos "state" =
       some (ServiceState.started.value) ∧
     (heartbeat_step ⟨ServiceState.started, "servicebase"⟩
        (fun q => if q = "extra" then some "1" else none)).infos "extra" =
       (fun q => if q = "extra" then some "1" else none : Dict) "extra") :=
  ⟨⟨by decide, by decide, by decide⟩,
   heartbeat_iteration_shape ⟨ServiceState.started, "servicebase"⟩
     (fun q => if q = "extra" then some "1" else none) "extra"
     (by decide) (by decide) (by decide)⟩

/-- C8 as stated is false: from state `init`, `run()` performs a state
transition (it writes `started`) yet emits no log entry at all, so not
every transition is accompanied by a log entry recording the new state. -/
theorem run_write_unlogged_counterexample :
    ¬ (∀ s ∈ (run ⟨ServiceState.init, "servicebase"⟩).writes,
        ∃ e ∈ (run ⟨ServiceState.init, "servicebase"⟩).log,
          s.pyStr ∈ e.args) := by
  decide

/-- C8 (amended): `_set_state` and `stop()` emit a log entry recording every
state they write, and `start()` logs its `starting` write; but the direct
assignment of `started` inside `run()` is never logged — whenever `run()`
writes a state its log is empty, and no log entry emitted by `start()`
(whose `run` sub-call performs that write) records the `started` value. -/
theorem transitions_logged_except_run_write (svc : ServiceBase) :
    (∀ s : ServiceState, ∀ w ∈ (set_state svc (.state s)).writes,
      ∃ e ∈ (set_state svc (.state s)).log, w.pyStr ∈ e.args) ∧
    (∀ w ∈ (stop svc).writes, ∃ e ∈ (stop svc).log, w.pyStr ∈ e.args) ∧
    (∃ e ∈ (start svc).log, ServiceState.starting.pyStr ∈ e.args) ∧
    ((run svc).writes = [] ∨ (run svc).log = []) ∧
    (∀ e ∈ (start svc).log, ServiceState.started.pyStr ∉ e.args) := by
  have hlog : (start svc).log =
      [⟨.info, "set server state to %s", [ServiceState.starting.pyStr]⟩,
       ⟨.info, "service starting", []⟩] := rfl
  refine ⟨?_, ?_, ?_, ?_, ?_⟩
  · intro s w hw
    have hw' : w = s := by simpa [set_state] using hw
    subst hw'
    exact ⟨⟨.info, "set server state to %s", [w.pyStr]⟩, by simp [set_state], by simp⟩
  · intro w hw
    have hw' : w = ServiceState.stopped := by simpa [stop, set_state] using hw
    subst hw'
    refine ⟨⟨.info, "set server state to %s", [ServiceState.stopped.pyStr]⟩, ?_, by simp⟩
    simp [stop, set_state]
  · exact ⟨⟨.info, "set server state to %s", [ServiceState.starting.pyStr]⟩,
      by rw [hlog]; simp, by simp⟩
  · by_cases hs : svc.state = ServiceState.started
    · exact Or.inl (by simp [run, hs])
    · exact Or.inr (by simp [run, hs])
  · intro e he
    rw [hlog] at he
    simp only [List.mem_cons, List.not_mem_nil, or_false] at he
    rcases he with rfl | rfl
    · decide
    · decide

/-- Witness for the amended C8 at a concrete service. -/
theorem transitions_logged_except_run_write_witness :
    (run ⟨ServiceState.init, "servicebase"⟩).writes = [] ∨
    (run ⟨ServiceState.init, "servicebase"⟩).log = [] :=
  (transitions_logged_except_run_write ⟨ServiceState.init, "servicebase"⟩).2.2.2.1

/-- C9: `run()` while the state is `stopping` behaves like the other
non-`started` states: the guard only excludes `started`, so the state
transitions to `started`. -/
theorem run_from_stopping_transitions (svc : ServiceBase)
    (h : svc.state = ServiceState.stopping) :
    (run svc).svc.state = ServiceState.started ∧
    (run svc).writes = [ServiceState.started] := by
  have hne : svc.state ≠ ServiceState.started := by simp [h]
  simp [run, hne]

/-- Witness for C9 at a concrete service in state `stopping`. -/
theorem run_from_stopping_transitions_witness :
    (ServiceBase.mk ServiceState.stopping "servicebase").state = ServiceState.stopping ∧
    ((run ⟨ServiceState.stopping, "servicebase"⟩).svc.state = ServiceState.started ∧
     (run ⟨ServiceState.stopping, "servicebase"⟩).writes = [ServiceState.started]) :=
  ⟨rfl, run_from_stopping_transitions ⟨ServiceState.stopping, "servicebase"⟩ rfl⟩

/-- C10: every heartbeat iteration overwrites the caller-supplied mapping's
entries under `"sid"`, `"type"` and `"state"` with the worker's values
(caller-supplied values under those keys are lost), the overwrite persists
in the mapping across iterations, and every other entry is unchanged. -/
theorem heartbeat_infos_overwritten (svc : ServiceBase) (infos : Dict)
    (n : Nat) (hn : 1 ≤ n) (k : String)
    (hk : k ≠ "sid" ∧ k ≠ "type" ∧ k ≠ "state") :
    hbInfosAfter svc infos n "sid" = some svc.sid ∧
    hbInfosAfter svc infos n "type" = some "heartbeat" ∧
    hbInfosAfter svc infos n "state" = some svc.state.value ∧
    hbInfosAfter svc infos n k = infos k := by
  obtain ⟨m, rfl⟩ : ∃ m, n = m + 1 := ⟨n - 1, by omega⟩
  exact ⟨rfl, rfl, rfl, hbInfosAfter_other_key svc infos k hk.1 hk.2.1 hk.2.2 (m + 1)⟩

/-- Witness for C10 after one iteration on a concrete dict. -/
theorem heartbeat_infos_overwritten_witness :
    (1 ≤ 1 ∧ (("extra" : String) ≠ "sid" ∧ ("extra" : String) ≠ "type" ∧
              ("extra" : String) ≠ "state")) ∧
    (hbInfosAfter ⟨ServiceState.init, "servicebase"⟩
       (fun q => if q = "sid" then some "callerjunk" else
                 if q = "extra" then some "1" else none) 1 "sid" = some "servicebase" ∧
     hbInfosAfter ⟨ServiceState.init, "servicebase"⟩
       (fun q => if q = "sid" then some "callerjunk" else
                 if q = "extra" then some "1" else none) 1 "type" = some "heartbeat" ∧
     hbInfosAfter ⟨ServiceState.init, "servicebase"⟩
       (fun q => if q = "sid" then some "callerjunk" else
                 if q = "extra" then some "1" else none) 1 "state" =
       some (ServiceState.init.value) ∧
     hbInfosAfter ⟨ServiceState.init, "servicebase"⟩
       (fun q => if q = "sid" then some "callerjunk" else
                 if q = "extra" then some "1" else none) 1 "extra" =
       (fun q => if q = "sid" then some "callerjunk" else
                 if q = "extra" then some "1" else none : Dict) "extra") :=
  ⟨⟨le_refl 1, by decide, by decide, by decide⟩,
   heartbeat_infos_overwritten ⟨ServiceState.init, "servicebase"⟩
     (fun q => if q = "sid" then some "callerjunk" else
               if q = "extra" then some "1" else none) 1 (le_refl 1) "extra"
     ⟨by decide, by decide, by decide⟩⟩
